import Mathlib

/-!
Shallow embedding of the Raydium liquidity rebalancer (src/main.ts, with the
mock adapter in src/unnamed/part_000).

Amounts are embedded as rationals (the source uses JS numbers holding decimal
amounts).  The four external on-chain operations (pool query, remove
liquidity, swap, add liquidity) are modelled by an `Adapter` oracle recording
the outcome each operation would have in one run; `rebalance` returns the list
of external calls it performed together with the run's outcome, so that
sequencing and failure-propagation claims can be stated.
-/

namespace Rebalancer

/-- Swap direction, from the `direction` parameter of `swapTokens`
(src/main.ts line 113): `solToToken` sends the base asset (SOL) to the quote
token, `tokenToSol` the reverse. -/
inductive Direction where
  | solToToken
  | tokenToSol
  deriving DecidableEq, Repr

/-- Pool data returned by the adapter's `fetchPoolById`
(src/unnamed/part_000 lines 15-18): `liquidity1Amount` is the SOL amount in
lamports, `liquidity2Amount` the token amount in smallest units. -/
structure PoolInfo where
  liquidity1Amount : ℚ
  liquidity2Amount : ℚ
  deriving DecidableEq, Repr

/-- `LAMPORTS_PER_SOL` from `@solana/web3.js`: 10^9 lamports per SOL. -/
def LAMPORTS_PER_SOL : ℚ := 1000000000

/-- The configuration held by `RaydiumLiquidityRebalancer` that the core logic
reads (src/main.ts lines 30-48): the initial target amounts.  The constructor
stores them without any validation. -/
structure RebalancerConfig where
  initialSolAmount : ℚ
  initialTokenAmount : ℚ
  deriving DecidableEq, Repr

/-- One `|current - target| / target <= tol` comparison from
src/main.ts lines 77-78.  When `target = 0` the source divides by zero: in JS
the left side is then `Infinity` (current ≠ target) or `NaN`
(current = target), and either way the `<=` comparison is false, so the
zero-target case is embedded as `false`. -/
def driftWithin (current target tol : ℚ) : Bool :=
  if target = 0 then false else decide (|current - target| / target ≤ tol)

/-- The pure range comparison of `checkPositionRange`
(src/main.ts lines 76-79): both assets must be within 10% of their targets. -/
def isInRange (currentSolAmount currentTokenAmount initialSolAmount
    initialTokenAmount : ℚ) : Bool :=
  driftWithin currentSolAmount initialSolAmount (1/10) &&
  driftWithin currentTokenAmount initialTokenAmount (1/10)

/-- `checkPositionRange` applied to a fetched pool (src/main.ts lines 69-79):
`currentSolAmount = pool.liquidity1Amount / LAMPORTS_PER_SOL`, while
`currentTokenAmount = pool.liquidity2Amount` with no normalization. -/
def checkRangeOfPool (cfg : RebalancerConfig) (pool : PoolInfo) : Bool :=
  isInRange (pool.liquidity1Amount / LAMPORTS_PER_SOL) pool.liquidity2Amount
    cfg.initialSolAmount cfg.initialTokenAmount

/-- Direction and input amount of the swap chosen by one rebalance cycle. -/
structure RebalancePlan where
  direction : Direction
  swapAmount : ℚ
  deriving DecidableEq, Repr

/-- The branch decision of `rebalance` (src/main.ts lines 185-198): if the
withdrawn SOL exceeds the target, swap the excess SOL to tokens, otherwise
swap `tokenAmount - targetTokenAmount` tokens to SOL. -/
def computePlan (solAmount tokenAmount targetSolAmount
    targetTokenAmount : ℚ) : RebalancePlan :=
  if solAmount > targetSolAmount then
    { direction := .solToToken, swapAmount := solAmount - targetSolAmount }
  else
    { direction := .tokenToSol, swapAmount := tokenAmount - targetTokenAmount }

/-- The `addLiquidity` arguments of each branch of `rebalance`
(src/main.ts lines 191-194 and 201-204), given the realized swap output. -/
def depositAmounts (solAmount tokenAmount targetSolAmount targetTokenAmount
    received : ℚ) : ℚ × ℚ :=
  if solAmount > targetSolAmount then
    (targetSolAmount, received + tokenAmount)
  else
    (received + solAmount, targetTokenAmount)

/-- The stage at which a run failed.  Each of `removeLiquidity`, `swapTokens`
and `addLiquidity` has a catch block logging a stage-specific message
(`Error removing liquidity` / `Error swapping tokens` / `Error adding
liquidity`, src/main.ts lines 106, 140, 164) before rethrowing, so a failure
is observably tagged with its stage. -/
inductive Stage where
  | withdraw
  | swap
  | deposit
  deriving DecidableEq, Repr

/-- How a run of `rebalance` can fail: the `Pool not found` error thrown by
`checkPositionRange` (src/main.ts line 66), or an error rethrown from the
stage whose catch block logged it; `cause` is the underlying error message. -/
inductive Failure where
  | poolNotFound
  | atStage (stage : Stage) (cause : String)
  deriving DecidableEq, Repr

/-- One external call performed by a run, in order: the pool query, the
remove-liquidity transaction, the swap transaction (with its direction and
input amount), and the add-liquidity transaction (with its two amounts). -/
inductive Event where
  | fetchPool
  | withdrawCall
  | swapCall (direction : Direction) (swapAmount : ℚ)
  | depositCall (solAmount tokenAmount : ℚ)
  deriving DecidableEq, Repr

/-- Oracle for the external venue: what each external operation returns (or
the error it throws) in one run.  `fetchPoolById` is the list returned by the
adapter's pool query (empty = no data); `removeTx`, `swapTx` and `addTx` are
the outcomes of the three transactions, with `swapTx` carrying the realized
`Number(minAmountOut)` on success (src/main.ts line 138). -/
structure Adapter where
  fetchPoolById : List PoolInfo
  removeTx : Except String Unit
  swapTx : Except String ℚ
  addTx : Except String Unit

/-- `checkPositionRange` (src/main.ts lines 59-80): fetch the pool; throw
`Pool not found` when the query returns no data; otherwise compare the
(asymmetrically normalized) amounts of the first pool against the targets. -/
def checkPositionRange (cfg : RebalancerConfig) (a : Adapter) :
    Except Failure Bool :=
  match a.fetchPoolById with
  | [] => .error .poolNotFound
  | pool :: _ => .ok (checkRangeOfPool cfg pool)

/-- `removeLiquidity` (src/main.ts lines 82-109): submit the withdraw-all
transaction; on failure rethrow the cause tagged with the withdraw stage; on
success return the hardcoded pair
`(initialSolAmount, initialTokenAmount)` (lines 101-104) regardless of the
pool state or of what was actually withdrawn. -/
def removeLiquidity (cfg : RebalancerConfig) (a : Adapter) :
    Except Failure (ℚ × ℚ) :=
  match a.removeTx with
  | .error e => .error (.atStage .withdraw e)
  | .ok _ => .ok (cfg.initialSolAmount, cfg.initialTokenAmount)

/-- `swapTokens` (src/main.ts lines 111-143): submit the swap transaction; on
failure rethrow the cause tagged with the swap stage; on success return the
realized output amount. -/
def swapTokens (a : Adapter) (swapAmount : ℚ) (direction : Direction) :
    Except Failure ℚ :=
  match a.swapTx with
  | .error e => .error (.atStage .swap e)
  | .ok minAmountOut => .ok minAmountOut

/-- `addLiquidity` (src/main.ts lines 145-167): submit the add-liquidity
transaction; on failure rethrow the cause tagged with the deposit stage. -/
def addLiquidity (a : Adapter) (solAmount tokenAmount : ℚ) :
    Except Failure Unit :=
  match a.addTx with
  | .error e => .error (.atStage .deposit e)
  | .ok _ => .ok ()

/-- `rebalance` (src/main.ts lines 169-208), returning the ordered list of
external calls performed together with the outcome.  The source also computes
`totalValue = solAmount + tokenAmount` (line 181) but never uses it; it is
omitted here.  `targetSolAmount` and `targetTokenAmount` (lines 182-183) are
the same configuration fields that `removeLiquidity` returns as the withdrawn
amounts. -/
def rebalance (cfg : RebalancerConfig) (a : Adapter) :
    List Event × Except Failure Unit :=
  match checkPositionRange cfg a with
  | .error e => ([.fetchPool], .error e)
  | .ok true => ([.fetchPool], .ok ())
  | .ok false =>
    match removeLiquidity cfg a with
    | .error e => ([.fetchPool, .withdrawCall], .error e)
    | .ok (solAmount, tokenAmount) =>
      let targetSolAmount := cfg.initialSolAmount
      let targetTokenAmount := cfg.initialTokenAmount
      let plan := computePlan solAmount tokenAmount targetSolAmount
        targetTokenAmount
      match swapTokens a plan.swapAmount plan.direction with
      | .error e =>
        ([.fetchPool, .withdrawCall, .swapCall plan.direction plan.swapAmount],
          .error e)
      | .ok received =>
        let dep := depositAmounts solAmount tokenAmount targetSolAmount
          targetTokenAmount received
        match addLiquidity a dep.1 dep.2 with
        | .error e =>
          ([.fetchPool, .withdrawCall,
            .swapCall plan.direction plan.swapAmount,
            .depositCall dep.1 dep.2], .error e)
        | .ok _ =>
          ([.fetchPool, .withdrawCall,
            .swapCall plan.direction plan.swapAmount,
            .depositCall dep.1 dep.2], .ok ())

/-- For nonzero targets, `isInRange` is the conjunction of the two relative
drift comparisons. -/
theorem isInRange_iff (c1 c2 t1 t2 : ℚ) (h1 : t1 ≠ 0) (h2 : t2 ≠ 0) :
    isInRange c1 c2 t1 t2 = true ↔
      (|c1 - t1| / t1 ≤ 1/10 ∧ |c2 - t2| / t2 ≤ 1/10) := by
  simp [isInRange, driftWithin, h1, h2]

/-- A zero target amount makes `driftWithin` false, so `isInRange` is false. -/
theorem isInRange_eq_false_of_zero_target (c1 c2 t1 t2 : ℚ)
    (h : t1 = 0 ∨ t2 = 0) : isInRange c1 c2 t1 t2 = false := by
  rcases h with h | h <;> simp [isInRange, driftWithin, h]

/-- C1: for every withdrawn (base, quote) pair and target position, the
strategy follows the two-branch rule: base in excess means a base-to-quote
swap of the exact base surplus and a deposit of
(targetBaseAmount, quoteAmount + swap output); otherwise a quote-to-base
swap of `quoteAmount - targetQuoteAmount` and a deposit of
(baseAmount + swap output, targetQuoteAmount).  In particular for target
(5, 5) and withdrawn amounts (6, 4) the plan is solToToken with
swapAmount 1. -/
theorem c1_strategy_two_branch_rule (solAmount tokenAmount targetSolAmount
    targetTokenAmount received : ℚ) :
    (solAmount > targetSolAmount →
      computePlan solAmount tokenAmount targetSolAmount targetTokenAmount =
        { direction := .solToToken,
          swapAmount := solAmount - targetSolAmount } ∧
      depositAmounts solAmount tokenAmount targetSolAmount targetTokenAmount
        received = (targetSolAmount, tokenAmount + received)) ∧
    (¬ solAmount > targetSolAmount →
      computePlan solAmount tokenAmount targetSolAmount targetTokenAmount =
        { direction := .tokenToSol,
          swapAmount := tokenAmount - targetTokenAmount } ∧
      depositAmounts solAmount tokenAmount targetSolAmount targetTokenAmount
        received = (solAmount + received, targetTokenAmount)) ∧
    computePlan 6 4 5 5 = { direction := .solToToken, swapAmount := 1 } := by
  refine ⟨fun h => ?_, fun h => ?_, ?_⟩
  · simp [computePlan, depositAmounts, if_pos h, add_comm]
  · simp [computePlan, depositAmounts, if_neg h, add_comm]
  · norm_num [computePlan]

/-- Witness for C1 at the spec's concrete scenario. -/
theorem c1_strategy_two_branch_rule_witness :
    computePlan 6 4 5 5 = { direction := .solToToken, swapAmount := 1 } ∧
    depositAmounts 6 4 5 5 2 = (5, 4 + 2) :=
  ⟨(c1_strategy_two_branch_rule 6 4 5 5 2).2.2,
   ((c1_strategy_two_branch_rule 6 4 5 5 2).1 (by norm_num)).2⟩

/-- C2: for positive targets, the range check is true exactly when both
relative drifts are at most the tolerance 1/10, and false whenever either
drift strictly exceeds it. -/
theorem c2_range_check_iff (currentSol currentTok targetSol targetTok : ℚ)
    (hb : 0 < targetSol) (hq : 0 < targetTok) :
    isInRange currentSol currentTok targetSol targetTok = true ↔
      (|currentSol - targetSol| / targetSol ≤ 1/10 ∧
       |currentTok - targetTok| / targetTok ≤ 1/10) :=
  isInRange_iff currentSol currentTok targetSol targetTok hb.ne' hq.ne'

/-- Witness for C2: the spec's quiescent scenario (1% drift on 5/5 targets)
is in range. -/
theorem c2_range_check_iff_witness : isInRange 5 5 5 5 = true :=
  (c2_range_check_iff 5 5 5 5 (by norm_num) (by norm_num)).2 (by norm_num)

/-- C5 counterexample: at withdrawn amounts (4, 4) against targets (5, 5),
neither asset exceeds its target, yet the computed plan is a quote-to-base
swap with swapAmount -1: the swap amount is negative, not 0, refuting both
the non-negativity claim and the swapAmount-0 degenerate case. -/
theorem c5_counterexample :
    computePlan 4 4 5 5 = { direction := .tokenToSol, swapAmount := -1 } ∧
    (computePlan 4 4 5 5).swapAmount < 0 := by
  norm_num [computePlan]

/-- C5 amended: if the base amount strictly exceeds its target the plan is a
base-to-quote swap of the exact (positive) base surplus; otherwise the plan
is a quote-to-base swap of the signed quote surplus
`tokenAmount - targetTokenAmount`, which is non-negative exactly when the
quote amount is at least its target; in particular when neither asset
exceeds its target and the quote amount equals its target, the plan is
quote-to-base with swapAmount 0.  The strategy is a total function and never
throws. -/
theorem c5_amended_swap_amount (solAmount tokenAmount targetSolAmount
    targetTokenAmount : ℚ) :
    (solAmount > targetSolAmount →
      computePlan solAmount tokenAmount targetSolAmount targetTokenAmount =
        { direction := .solToToken,
          swapAmount := solAmount - targetSolAmount } ∧
      0 < (computePlan solAmount tokenAmount targetSolAmount
        targetTokenAmount).swapAmount) ∧
    (solAmount ≤ targetSolAmount →
      computePlan solAmount tokenAmount targetSolAmount targetTokenAmount =
        { direction := .tokenToSol,
          swapAmount := tokenAmount - targetTokenAmount } ∧
      (0 ≤ (computePlan solAmount tokenAmount targetSolAmount
          targetTokenAmount).swapAmount ↔
        targetTokenAmount ≤ tokenAmount)) ∧
    (solAmount ≤ targetSolAmount → tokenAmount = targetTokenAmount →
      computePlan solAmount tokenAmount targetSolAmount targetTokenAmount =
        { direction := .tokenToSol, swapAmount := 0 }) := by
  refine ⟨fun h => ⟨?_, ?_⟩, fun h => ⟨?_, ?_⟩, fun h he => ?_⟩
  · simp [computePlan, if_pos h]
  · simp [computePlan, if_pos h, sub_pos, h]
  · simp [computePlan, if_neg (not_lt.mpr h)]
  · simp [computePlan, if_neg (not_lt.mpr h), sub_nonneg]
  · simp [computePlan, if_neg (not_lt.mpr h), he]

/-- Witness for C5 amended: the base-excess branch at (6, 4) and the
no-surplus case at (4, 5) against targets (5, 5). -/
theorem c5_amended_swap_amount_witness :
    computePlan 6 4 5 5 = { direction := .solToToken, swapAmount := 6 - 5 } ∧
    computePlan 4 5 5 5 = { direction := .tokenToSol, swapAmount := 0 } :=
  ⟨((c5_amended_swap_amount 6 4 5 5).1 (by norm_num)).1,
   (c5_amended_swap_amount 4 5 5 5).2.2 (by norm_num) rfl⟩

/-- Because `removeLiquidity` hands back the configuration's own target
amounts, every run that reaches the strategy feeds it `solAmount =
targetSolAmount` and `tokenAmount = targetTokenAmount`; the branch condition
is then false and the plan is a zero-amount tokenToSol swap, with deposit
amounts `(received + initialSolAmount, initialTokenAmount)`.  This lemma
evaluates the whole out-of-range run as a function of the swap and deposit
transaction outcomes. -/
theorem rebalance_out_of_range_run (cfg : RebalancerConfig) (a : Adapter)
    (pool : PoolInfo) (rest : List PoolInfo)
    (hf : a.fetchPoolById = pool :: rest)
    (hrange : checkRangeOfPool cfg pool = false)
    (hw : a.removeTx = .ok ()) :
    rebalance cfg a =
      match a.swapTx with
      | .error e =>
        ([.fetchPool, .withdrawCall, .swapCall .tokenToSol 0],
          .error (.atStage .swap e))
      | .ok received =>
        match a.addTx with
        | .error e =>
          ([.fetchPool, .withdrawCall, .swapCall .tokenToSol 0,
            .depositCall (received + cfg.initialSolAmount)
              cfg.initialTokenAmount], .error (.atStage .deposit e))
        | .ok _ =>
          ([.fetchPool, .withdrawCall, .swapCall .tokenToSol 0,
            .depositCall (received + cfg.initialSolAmount)
              cfg.initialTokenAmount], .ok ()) := by
  rcases hs : a.swapTx with e | received
  · simp [rebalance, checkPositionRange, removeLiquidity, swapTokens,
      hf, hrange, hw, hs, computePlan, sub_self]
  · rcases hd : a.addTx with e | u
    · simp [rebalance, checkPositionRange, removeLiquidity, swapTokens,
        addLiquidity, hf, hrange, hw, hs, hd, computePlan, depositAmounts,
        sub_self]
    · simp [rebalance, checkPositionRange, removeLiquidity, swapTokens,
        addLiquidity, hf, hrange, hw, hs, hd, computePlan, depositAmounts,
        sub_self]

/-- C3: in a run that reaches the out-of-range path, when the withdraw
transaction succeeds and the swap transaction fails, no deposit call is
performed and the run fails at the swap stage with the underlying cause. -/
theorem c3_swap_failure_no_deposit (cfg : RebalancerConfig) (a : Adapter)
    (pool : PoolInfo) (rest : List PoolInfo) (e : String)
    (hf : a.fetchPoolById = pool :: rest)
    (hrange : checkRangeOfPool cfg pool = false)
    (hw : a.removeTx = .ok ()) (hs : a.swapTx = .error e) :
    (∀ s t, Event.depositCall s t ∉ (rebalance cfg a).1) ∧
    (rebalance cfg a).2 = .error (.atStage .swap e) := by
  have hrun := rebalance_out_of_range_run cfg a pool rest hf hrange hw
  rw [hs] at hrun
  refine ⟨fun s t hmem => ?_, ?_⟩
  · rw [hrun] at hmem
    simp at hmem
  · rw [hrun]

/-- Witness for C3: targets (5, 5), pool (6e9 lamports, 4 raw) is out of
range; withdraw succeeds, swap throws. -/
theorem c3_swap_failure_no_deposit_witness :
    Event.depositCall 1 2 ∉
      (rebalance ⟨5, 5⟩
        ⟨[⟨6000000000, 4⟩], .ok (), .error "tx failed", .ok ()⟩).1 ∧
    (rebalance ⟨5, 5⟩
        ⟨[⟨6000000000, 4⟩], .ok (), .error "tx failed", .ok ()⟩).2 =
      .error (.atStage .swap "tx failed") :=
  ⟨(c3_swap_failure_no_deposit ⟨5, 5⟩
      ⟨[⟨6000000000, 4⟩], .ok (), .error "tx failed", .ok ()⟩
      ⟨6000000000, 4⟩ [] "tx failed" rfl
      (by norm_num [checkRangeOfPool, isInRange, driftWithin,
        LAMPORTS_PER_SOL]) rfl rfl).1 1 2,
   (c3_swap_failure_no_deposit ⟨5, 5⟩
      ⟨[⟨6000000000, 4⟩], .ok (), .error "tx failed", .ok ()⟩
      ⟨6000000000, 4⟩ [] "tx failed" rfl
      (by norm_num [checkRangeOfPool, isInRange, driftWithin,
        LAMPORTS_PER_SOL]) rfl rfl).2⟩

/-- C4: with positive targets, whenever the fetched pool's (normalized)
amounts are within tolerance of the targets on both assets — in particular
when they equal the targets exactly — the run performs only the pool query,
submits no withdraw, swap or deposit transaction, and succeeds.  A second
run whose snapshot matches the target is this statement at drift 0: a
no-op. -/
theorem c4_in_range_no_transactions (cfg : RebalancerConfig) (a : Adapter)
    (pool : PoolInfo) (rest : List PoolInfo)
    (hf : a.fetchPoolById = pool :: rest)
    (hb : 0 < cfg.initialSolAmount) (hq : 0 < cfg.initialTokenAmount)
    (h1 : |pool.liquidity1Amount / LAMPORTS_PER_SOL - cfg.initialSolAmount| /
        cfg.initialSolAmount ≤ 1/10)
    (h2 : |pool.liquidity2Amount - cfg.initialTokenAmount| /
        cfg.initialTokenAmount ≤ 1/10) :
    rebalance cfg a = ([.fetchPool], .ok ()) := by
  have hr : checkRangeOfPool cfg pool = true :=
    (isInRange_iff (pool.liquidity1Amount / LAMPORTS_PER_SOL)
      pool.liquidity2Amount cfg.initialSolAmount cfg.initialTokenAmount
      hb.ne' hq.ne').mpr ⟨h1, h2⟩
  simp [rebalance, checkPositionRange, hf, hr]

/-- Witness for C4: a snapshot exactly equal to the target (5 SOL as 5e9
lamports, 5 raw quote units) leads to a pure no-op run. -/
theorem c4_in_range_no_transactions_witness :
    rebalance ⟨5, 5⟩ ⟨[⟨5000000000, 5⟩], .ok (), .ok 0, .ok ()⟩ =
      ([.fetchPool], .ok ()) :=
  c4_in_range_no_transactions ⟨5, 5⟩
    ⟨[⟨5000000000, 5⟩], .ok (), .ok 0, .ok ()⟩ ⟨5000000000, 5⟩ [] rfl
    (by norm_num) (by norm_num)
    (by norm_num [LAMPORTS_PER_SOL]) (by norm_num)

/-- C6: when the adapter's pool query returns no data, the run fails with
the pool-not-found error and the only external call made is the query
itself: no withdraw, swap or deposit transaction is attempted. -/
theorem c6_pool_not_found_aborts (cfg : RebalancerConfig) (a : Adapter)
    (hf : a.fetchPoolById = []) :
    rebalance cfg a = ([.fetchPool], .error .poolNotFound) := by
  simp [rebalance, checkPositionRange, hf]

/-- Witness for C6 at a concrete configuration and empty pool response. -/
theorem c6_pool_not_found_aborts_witness :
    rebalance ⟨5, 5⟩ ⟨[], .ok (), .ok 0, .ok ()⟩ =
      ([.fetchPool], .error .poolNotFound) :=
  c6_pool_not_found_aborts ⟨5, 5⟩ ⟨[], .ok (), .ok 0, .ok ()⟩ rfl

/-- C8: a successful withdraw step returns exactly the configured initial
target amounts, and the returned pair is the same for any two adapters (in
particular for any two pool states): it is independent of the pool snapshot
and of anything actually withdrawn. -/
theorem c8_withdraw_returns_config_targets (cfg : RebalancerConfig)
    (a b : Adapter) (ha : a.removeTx = .ok ()) (hb : b.removeTx = .ok ()) :
    removeLiquidity cfg a =
      .ok (cfg.initialSolAmount, cfg.initialTokenAmount) ∧
    removeLiquidity cfg a = removeLiquidity cfg b := by
  simp [removeLiquidity, ha, hb]

/-- Witness for C8: two adapters with entirely different pool responses
yield the same withdrawn pair, the configured (5, 5). -/
theorem c8_withdraw_returns_config_targets_witness :
    removeLiquidity ⟨5, 5⟩ ⟨[⟨6000000000, 4⟩], .ok (), .ok 0, .ok ()⟩ =
      .ok (5, 5) ∧
    removeLiquidity ⟨5, 5⟩ ⟨[⟨6000000000, 4⟩], .ok (), .ok 0, .ok ()⟩ =
      removeLiquidity ⟨5, 5⟩ ⟨[], .ok (), .error "x", .error "y"⟩ :=
  c8_withdraw_returns_config_targets ⟨5, 5⟩
    ⟨[⟨6000000000, 4⟩], .ok (), .ok 0, .ok ()⟩
    ⟨[], .ok (), .error "x", .error "y"⟩ rfl rfl

/-- C9: in every run that reaches the out-of-range path with a successful
withdraw, any swap performed is in the tokenToSol direction with swapAmount
exactly 0, and when the swap succeeds with output `received`, any deposit
performed uses the amounts
`(received + initialSolAmount, initialTokenAmount)` — because the withdrawn
amounts fed to the strategy always equal the targets. -/
theorem c9_run_swaps_zero_token_to_sol (cfg : RebalancerConfig) (a : Adapter)
    (pool : PoolInfo) (rest : List PoolInfo)
    (hf : a.fetchPoolById = pool :: rest)
    (hrange : checkRangeOfPool cfg pool = false)
    (hw : a.removeTx = .ok ()) :
    (∀ d amt, Event.swapCall d amt ∈ (rebalance cfg a).1 →
      d = Direction.tokenToSol ∧ amt = 0) ∧
    (∀ received, a.swapTx = .ok received → ∀ s t,
      Event.depositCall s t ∈ (rebalance cfg a).1 →
      s = received + cfg.initialSolAmount ∧ t = cfg.initialTokenAmount) := by
  have hrun := rebalance_out_of_range_run cfg a pool rest hf hrange hw
  constructor
  · intro d amt hmem
    rcases hs : a.swapTx with e | received
    · rw [hs] at hrun
      rw [hrun] at hmem
      simpa using hmem
    · rw [hs] at hrun
      rcases hd : a.addTx with e | u
      · rw [hd] at hrun
        rw [hrun] at hmem
        simpa using hmem
      · rw [hd] at hrun
        rw [hrun] at hmem
        simpa using hmem
  · intro received hs s t hmem
    rw [hs] at hrun
    rcases hd : a.addTx with e | u
    · rw [hd] at hrun
      rw [hrun] at hmem
      simpa using hmem
    · rw [hd] at hrun
      rw [hrun] at hmem
      simpa using hmem

/-- Witness for C9: with targets (5, 5), an out-of-range pool, withdraw ok
and swap output 3, the deposit recorded in the trace carries amounts
(3 + 5, 5). -/
theorem c9_run_swaps_zero_token_to_sol_witness :
    Event.swapCall .tokenToSol 0 ∈
      (rebalance ⟨5, 5⟩
        ⟨[⟨6000000000, 4⟩], .ok (), .ok 3, .ok ()⟩).1 ∧
    ((8 : ℚ) = 3 + 5 ∧ (5 : ℚ) = 5) :=
  ⟨by
    have hrun := rebalance_out_of_range_run ⟨5, 5⟩
      ⟨[⟨6000000000, 4⟩], .ok (), .ok 3, .ok ()⟩ ⟨6000000000, 4⟩ [] rfl
      (by norm_num [checkRangeOfPool, isInRange, driftWithin,
        LAMPORTS_PER_SOL]) rfl
    rw [hrun]
    simp,
   (c9_run_swaps_zero_token_to_sol ⟨5, 5⟩
      ⟨[⟨6000000000, 4⟩], .ok (), .ok 3, .ok ()⟩ ⟨6000000000, 4⟩ [] rfl
      (by norm_num [checkRangeOfPool, isInRange, driftWithin,
        LAMPORTS_PER_SOL]) rfl).2 3 rfl 8 5
      (by
        have hrun := rebalance_out_of_range_run ⟨5, 5⟩
          ⟨[⟨6000000000, 4⟩], .ok (), .ok 3, .ok ()⟩ ⟨6000000000, 4⟩ [] rfl
          (by norm_num [checkRangeOfPool, isInRange, driftWithin,
            LAMPORTS_PER_SOL]) rfl
        rw [hrun]
        norm_num)⟩

/-- C7 counterexample: with `initialSolAmount = 0` no configuration error is
raised and the run is not stopped before network calls — the range check
treats the position as out of range (the source divides by zero, producing a
comparison that is false) and the run proceeds through the withdraw, swap
and deposit transactions and succeeds. -/
theorem c7_counterexample :
    rebalance ⟨0, 5⟩ ⟨[⟨5000000000, 5⟩], .ok (), .ok 2, .ok ()⟩ =
      ([.fetchPool, .withdrawCall, .swapCall .tokenToSol 0,
        .depositCall (2 + 0) 5], .ok ()) := by
  have hrun := rebalance_out_of_range_run ⟨0, 5⟩
    ⟨[⟨5000000000, 5⟩], .ok (), .ok 2, .ok ()⟩ ⟨5000000000, 5⟩ [] rfl
    (isInRange_eq_false_of_zero_target _ _ _ _ (Or.inl rfl)) rfl
  rw [hrun]

/-- C7 amended: a zero target amount is not validated anywhere: no
configuration error exists in the program.  The zero-target drift comparison
evaluates to false, so the range check reports out of range for every pool
snapshot, and `rebalance()` always proceeds to submit the withdraw
transaction (and, if transactions succeed, the swap and deposit as well) —
the zero target is silently treated as "always out of range". -/
theorem c7_amended_zero_target_proceeds (cfg : RebalancerConfig)
    (a : Adapter) (pool : PoolInfo) (rest : List PoolInfo)
    (hf : a.fetchPoolById = pool :: rest)
    (h0 : cfg.initialSolAmount = 0 ∨ cfg.initialTokenAmount = 0) :
    checkRangeOfPool cfg pool = false ∧
    Event.withdrawCall ∈ (rebalance cfg a).1 := by
  have hr : checkRangeOfPool cfg pool = false :=
    isInRange_eq_false_of_zero_target _ _ _ _ h0
  refine ⟨hr, ?_⟩
  rcases hw : a.removeTx with e | u
  · simp [rebalance, checkPositionRange, removeLiquidity, hf, hr, hw]
  · cases u
    have hrun := rebalance_out_of_range_run cfg a pool rest hf hr hw
    rcases hs : a.swapTx with e | received
    · rw [hs] at hrun
      rw [hrun]
      simp
    · rcases hd : a.addTx with e | v
      · rw [hs] at hrun
        rw [hd] at hrun
        rw [hrun]
        simp
      · rw [hs] at hrun
        rw [hd] at hrun
        rw [hrun]
        simp

/-- Witness for C7 amended at a concrete zero-base-target configuration. -/
theorem c7_amended_zero_target_proceeds_witness :
    checkRangeOfPool ⟨0, 5⟩ ⟨5000000000, 5⟩ = false ∧
    Event.withdrawCall ∈
      (rebalance ⟨0, 5⟩ ⟨[⟨5000000000, 5⟩], .ok (), .ok 2, .ok ()⟩).1 :=
  c7_amended_zero_target_proceeds ⟨0, 5⟩
    ⟨[⟨5000000000, 5⟩], .ok (), .ok 2, .ok ()⟩ ⟨5000000000, 5⟩ [] rfl
    (Or.inl rfl)

/-- C10: for nonzero targets the range check holds exactly when the base
amount divided by 10^9 (lamports per SOL) is within tolerance of its target
AND the raw, unnormalized quote amount is within tolerance of its target.
Concretely, the mock pool (5e9 lamports, 5000000 raw quote units) against
targets (5, 5) passes the normalized base comparison but fails the raw
quote comparison, so the check returns false. -/
theorem c10_asymmetric_normalization (cfg : RebalancerConfig)
    (pool : PoolInfo) (hb : cfg.initialSolAmount ≠ 0)
    (hq : cfg.initialTokenAmount ≠ 0) :
    (checkRangeOfPool cfg pool = true ↔
      (|pool.liquidity1Amount / 1000000000 - cfg.initialSolAmount| /
          cfg.initialSolAmount ≤ 1/10 ∧
       |pool.liquidity2Amount - cfg.initialTokenAmount| /
          cfg.initialTokenAmount ≤ 1/10)) ∧
    checkRangeOfPool ⟨5, 5⟩ ⟨5 * 1000000000, 5000000⟩ = false ∧
    driftWithin (5 * 1000000000 / LAMPORTS_PER_SOL) 5 (1/10) = true ∧
    driftWithin 5000000 5 (1/10) = false := by
  refine ⟨?_, ?_, ?_, ?_⟩
  · have h := isInRange_iff (pool.liquidity1Amount / LAMPORTS_PER_SOL)
      pool.liquidity2Amount cfg.initialSolAmount cfg.initialTokenAmount hb hq
    simpa [checkRangeOfPool, LAMPORTS_PER_SOL] using h
  · norm_num [checkRangeOfPool, isInRange, driftWithin, LAMPORTS_PER_SOL]
  · norm_num [driftWithin, LAMPORTS_PER_SOL]
  · norm_num [driftWithin]

/-- Witness for C10: the mock adapter's pool data is judged out of range
against the example targets (5, 5) because of the raw quote comparison. -/
theorem c10_asymmetric_normalization_witness :
    checkRangeOfPool ⟨5, 5⟩ ⟨5 * 1000000000, 5000000⟩ = false ∧
    driftWithin 5000000 5 (1/10) = false :=
  ⟨(c10_asymmetric_normalization ⟨5, 5⟩ ⟨5 * 1000000000, 5000000⟩
      (by norm_num) (by norm_num)).2.1,
   (c10_asymmetric_normalization ⟨5, 5⟩ ⟨5 * 1000000000, 5000000⟩
      (by norm_num) (by norm_num)).2.2.2⟩

end Rebalancer
